import Mathlib

/-!
Verification of the tokenomics simulation engine.

The engine is the function `run_simulation` of `src/sim.py`: a deterministic
month-by-month projection of token price, circulating supply, protocol revenue
and a holder's portfolio value.  The Python source computes with floating point;
the embedding below idealises the arithmetic over the rationals `ℚ`, keeping
every formula, constant, branch and the exact order of state updates of the
source.  The Streamlit widgets of the source only collect the scalar inputs;
they are modelled by the immutable `Params` structure, whose field names follow
the Python variable names.
-/

/-- The scalar inputs collected by the sidebar widgets of `src/sim.py`.
`initial_aum` is in millions of currency units, exactly as the widget
"New AUM Added Per Month ($M)" collects it. -/
structure Params where
  initial_aum : ℚ
  monthly_growth : ℚ
  initial_supply : ℚ
  fee_bps : ℚ
  burn_pct : ℚ
  initial_price : ℚ
  liquidity_depth : ℚ
  user_tokens : ℚ
deriving DecidableEq

/-- The mutable per-run state of the simulation loop of `run_simulation`:
the accumulator variables `current_supply`, `current_price`, `total_aum`
and `monthly_new_aum`. -/
structure SimState where
  current_supply : ℚ
  current_price : ℚ
  total_aum : ℚ
  monthly_new_aum : ℚ
deriving DecidableEq

/-- One row of the data frame built by `run_simulation`: the dict appended to
`data` at the end of each loop iteration, fields in source order
("Month", "Total AUM ($)", "New AUM ($)", "Revenue ($)", "Token Price ($)",
"Supply", "TTV ($)", "Tokens Burned", "Market Depth ($)",
"Your Portfolio Value ($)"). -/
structure PeriodRecord where
  month : ℕ
  totalAUM : ℚ
  newAUM : ℚ
  revenue : ℚ
  tokenPrice : ℚ
  supply : ℚ
  ttv : ℚ
  tokensBurned : ℚ
  marketDepth : ℚ
  portfolioValue : ℚ
deriving DecidableEq, Inhabited

/-- `CRITICAL_SUPPLY_THRESHOLD = 1_000_000` of `src/sim.py`. -/
def CRITICAL_SUPPLY_THRESHOLD : ℚ := 1000000

/-- All intermediate quantities of one iteration of the loop of
`run_simulation`, named after the Python locals.  `tokens_burned_raw` is the
value of `tokens_burned` before the circuit-breaker conditional rebinds it. -/
structure StepData where
  total_aum : ℚ
  revenue_usd : ℚ
  tokens_bought : ℚ
  tokens_burned_raw : ℚ
  tokens_burned : ℚ
  current_mcap : ℚ
  dynamic_depth : ℚ
  price_move_pct : ℚ
  new_price : ℚ
  new_supply : ℚ
  new_monthly_new_aum : ℚ
  portfolio_value : ℚ
  total_token_value : ℚ

/-- The body of one iteration of the loop of `run_simulation`
(src/sim.py lines 88-126), translated statement by statement. -/
def stepData (p : Params) (s : SimState) : StepData :=
  let total_aum := s.total_aum + s.monthly_new_aum
  let fee_rate := p.fee_bps / 10000
  let revenue_usd := s.monthly_new_aum * fee_rate
  let tokens_bought := revenue_usd / s.current_price
  let tokens_burned_raw := tokens_bought * (p.burn_pct / 100)
  let tokens_burned :=
    if s.current_supply < CRITICAL_SUPPLY_THRESHOLD then
      tokens_burned_raw * (s.current_supply / CRITICAL_SUPPLY_THRESHOLD) * 0.01
    else
      tokens_burned_raw
  let current_mcap := s.current_supply * s.current_price
  let dynamic_depth := p.liquidity_depth + current_mcap * 0.01
  let price_move_pct := revenue_usd / dynamic_depth
  let new_price := s.current_price * (1 + price_move_pct)
  let new_supply := max 0 (s.current_supply - tokens_burned)
  let new_monthly_new_aum := s.monthly_new_aum * (1 + p.monthly_growth / 100)
  let portfolio_value := p.user_tokens * new_price
  let total_token_value := new_supply * new_price
  ⟨total_aum, revenue_usd, tokens_bought, tokens_burned_raw, tokens_burned,
   current_mcap, dynamic_depth, price_move_pct, new_price, new_supply,
   new_monthly_new_aum, portfolio_value, total_token_value⟩

/-- One loop iteration as a state transition together with the emitted record.
The record stores the post-update values, in particular the post-growth
`monthly_new_aum`, exactly as the `data.append` of the source does. -/
def step (p : Params) (s : SimState) (i : ℕ) : SimState × PeriodRecord :=
  let d := stepData p s
  (⟨d.new_supply, d.new_price, d.total_aum, d.new_monthly_new_aum⟩,
   ⟨i, d.total_aum, d.new_monthly_new_aum, d.revenue_usd, d.new_price,
    d.new_supply, d.total_token_value, d.tokens_burned, d.dynamic_depth,
    d.portfolio_value⟩)

/-- The `for i in range(1, months + 1)` loop of `run_simulation`: `i` is the
month index of the next record, the third argument counts the remaining
iterations. -/
def simLoop (p : Params) : SimState → ℕ → ℕ → List PeriodRecord
  | _, _, 0 => []
  | s, i, n + 1 => (step p s i).2 :: simLoop p (step p s i).1 (i + 1) n

/-- The initial state of one run: `current_supply = initial_supply`,
`current_price = initial_price`, `total_aum = 0`,
`monthly_new_aum = initial_aum * 1_000_000`. -/
def initState (p : Params) : SimState :=
  ⟨p.initial_supply, p.initial_price, 0, p.initial_aum * 1000000⟩

/-- `months = 24` of `run_simulation`: the horizon is hard-coded. -/
def months : ℕ := 24

/-- `run_simulation` of `src/sim.py`: the list of the 24 rows of the returned
data frame, in order. -/
def run_simulation (p : Params) : List PeriodRecord :=
  simLoop p (initState p) 1 months

/-- The input constraints of the parameter set: positivity of price, depth and
supply, non-negative new AUM, fee in 0-10000 bps, burn in 0-100 %, and the
lower bounds of the source's sliders (growth slider starts at 0, holdings
widget is a token count). -/
def ValidParams (p : Params) : Prop :=
  0 < p.initial_price ∧ 0 < p.liquidity_depth ∧ 0 < p.initial_supply ∧
  0 ≤ p.initial_aum ∧ 0 ≤ p.fee_bps ∧ p.fee_bps ≤ 10000 ∧
  0 ≤ p.burn_pct ∧ p.burn_pct ≤ 100 ∧ 0 ≤ p.monthly_growth ∧ 0 ≤ p.user_tokens

instance (p : Params) : Decidable (ValidParams p) := by
  unfold ValidParams; infer_instance

/-- The literal scenario of the spec: the default widget values of the source
(new AUM $10M/month, 1 % growth, 100M supply, 25 bps fee, 50 % burn, $0.50
start price, $500k depth, 1M tokens held). -/
def scenarioParams : Params :=
  ⟨10, 1, 100000000, 25, 50, 0.5, 500000, 1000000⟩

/-- A record with its observer-dependent field blanked, used to compare two
runs on every field other than the portfolio value. -/
def eraseObserver (r : PeriodRecord) : PeriodRecord :=
  { r with portfolioValue := 0 }

/-- The running invariant of the loop state: non-negative supply, positive
price, non-negative pending new AUM. -/
def GoodState (s : SimState) : Prop :=
  0 ≤ s.current_supply ∧ 0 < s.current_price ∧ 0 ≤ s.monthly_new_aum

/-- Any property holding of every record emitted by `step` holds of every
record of the loop. -/
theorem simLoop_forall {p : Params} {P : PeriodRecord → Prop}
    (hP : ∀ s i, P (step p s i).2) :
    ∀ (n : ℕ) (s : SimState) (i : ℕ), (simLoop p s i n).Forall P := by
  intro n
  induction n with
  | zero => intro s i; trivial
  | succ n ih =>
    intro s i
    rw [simLoop, List.forall_cons]
    exact ⟨hP s i, ih _ _⟩

/-- Claim C1: with the literal scenario parameters the first simulated period
produces exactly revenue 25,000, tokensBought 50,000, tokensBurned 25,000
(circuit breaker not triggered), pre-update market cap 50,000,000, dynamic
depth 1,000,000, price move 0.025, post-update price 0.5125 and post-update
supply 99,975,000, and the first emitted record carries these values. -/
theorem c1_scenario_first_period :
    (stepData scenarioParams (initState scenarioParams)).revenue_usd = 25000 ∧
    (stepData scenarioParams (initState scenarioParams)).tokens_bought = 50000 ∧
    (stepData scenarioParams (initState scenarioParams)).tokens_burned = 25000 ∧
    ¬ (initState scenarioParams).current_supply < CRITICAL_SUPPLY_THRESHOLD ∧
    (stepData scenarioParams (initState scenarioParams)).current_mcap = 50000000 ∧
    (stepData scenarioParams (initState scenarioParams)).dynamic_depth = 1000000 ∧
    (stepData scenarioParams (initState scenarioParams)).price_move_pct = 0.025 ∧
    (stepData scenarioParams (initState scenarioParams)).new_price = 0.5125 ∧
    (stepData scenarioParams (initState scenarioParams)).new_supply = 99975000 ∧
    (run_simulation scenarioParams).headI.revenue = 25000 ∧
    (run_simulation scenarioParams).headI.tokensBurned = 25000 ∧
    (run_simulation scenarioParams).headI.marketDepth = 1000000 ∧
    (run_simulation scenarioParams).headI.tokenPrice = 0.5125 ∧
    (run_simulation scenarioParams).headI.supply = 99975000 := by
  have h : (run_simulation scenarioParams).headI =
      (step scenarioParams (initState scenarioParams) 1).2 := rfl
  rw [h]
  norm_num [step, stepData, initState, scenarioParams,
    CRITICAL_SUPPLY_THRESHOLD]

/-- Claim C2: in any period whose pre-burn supply is strictly below the
1,000,000-token threshold the burned amount is the unthrottled burn
(revenue / price × burnPct / 100) scaled by (supply / 1,000,000) and by 0.01;
in any period whose pre-burn supply is at least the threshold the unthrottled
burn applies unchanged. -/
theorem c2_circuit_breaker (p : Params) (s : SimState) :
    (s.current_supply < CRITICAL_SUPPLY_THRESHOLD →
      (stepData p s).tokens_burned =
        (stepData p s).revenue_usd / s.current_price * (p.burn_pct / 100) *
          (s.current_supply / 1000000) * 0.01) ∧
    (CRITICAL_SUPPLY_THRESHOLD ≤ s.current_supply →
      (stepData p s).tokens_burned =
        (stepData p s).revenue_usd / s.current_price * (p.burn_pct / 100)) := by
  constructor
  · intro hlt
    simp only [stepData]
    rw [if_pos hlt]
    norm_num [CRITICAL_SUPPLY_THRESHOLD]
  · intro hge
    simp only [stepData]
    rw [if_neg (not_lt.mpr hge)]

/-- The circuit-breaker law instantiated on two concrete states, one on each
side of the threshold. -/
theorem c2_circuit_breaker_witness :
    ((⟨500000, 1, 0, 1000000⟩ : SimState).current_supply <
        CRITICAL_SUPPLY_THRESHOLD ∧
      (stepData scenarioParams ⟨500000, 1, 0, 1000000⟩).tokens_burned =
        (stepData scenarioParams ⟨500000, 1, 0, 1000000⟩).revenue_usd /
            (⟨500000, 1, 0, 1000000⟩ : SimState).current_price *
            (scenarioParams.burn_pct / 100) *
          ((⟨500000, 1, 0, 1000000⟩ : SimState).current_supply / 1000000) *
          0.01) ∧
    (CRITICAL_SUPPLY_THRESHOLD ≤
        (⟨2000000, 1, 0, 1000000⟩ : SimState).current_supply ∧
      (stepData scenarioParams ⟨2000000, 1, 0, 1000000⟩).tokens_burned =
        (stepData scenarioParams ⟨2000000, 1, 0, 1000000⟩).revenue_usd /
            (⟨2000000, 1, 0, 1000000⟩ : SimState).current_price *
          (scenarioParams.burn_pct / 100)) :=
  ⟨⟨by norm_num [CRITICAL_SUPPLY_THRESHOLD],
    (c2_circuit_breaker scenarioParams ⟨500000, 1, 0, 1000000⟩).1
      (by norm_num [CRITICAL_SUPPLY_THRESHOLD])⟩,
   ⟨by norm_num [CRITICAL_SUPPLY_THRESHOLD],
    (c2_circuit_breaker scenarioParams ⟨2000000, 1, 0, 1000000⟩).2
      (by norm_num [CRITICAL_SUPPLY_THRESHOLD])⟩⟩

/-- Claim C3 fails on the code: in the first scenario record the revenue is
25,000 but the recorded new-AUM field is the post-growth 10,100,000, whose
fee share is 25,250. -/
theorem c3_counterexample :
    ¬ (run_simulation scenarioParams).headI.revenue =
        (run_simulation scenarioParams).headI.newAUM *
          (scenarioParams.fee_bps / 10000) := by
  have h : (run_simulation scenarioParams).headI =
      (step scenarioParams (initState scenarioParams) 1).2 := rfl
  rw [h]
  norm_num [step, stepData, initState, scenarioParams]

/-- Claim C3 amended: each record's revenue was computed from the pre-growth
new AUM, while the record's new-AUM field stores the post-growth value, so
revenue × (1 + growth/100) = recorded newAUM × (feeBps/10000) for every
emitted record. -/
theorem c3_amended_revenue_newaum (p : Params) :
    (run_simulation p).Forall
      (fun r => r.revenue * (1 + p.monthly_growth / 100) =
        r.newAUM * (p.fee_bps / 10000)) := by
  apply simLoop_forall
  intro s i
  simp only [step, stepData]
  ring

/-- The month fields of the loop's output are the consecutive integers
starting at the running index. -/
theorem simLoop_map_month (p : Params) :
    ∀ (n : ℕ) (s : SimState) (i : ℕ),
      (simLoop p s i n).map PeriodRecord.month = List.range' i n := by
  intro n
  induction n with
  | zero => intro s i; rfl
  | succ n ih =>
    intro s i
    rw [simLoop, List.map_cons, List.range'_succ, ih]
    rfl

/-- Claim C6: a run returns exactly `horizonMonths` (= 24) records, ordered by
month ascending and month-indexed 1..24 with no gaps. -/
theorem c6_length_and_months (p : Params) :
    (run_simulation p).length = months ∧
    (run_simulation p).map PeriodRecord.month = List.range' 1 months := by
  have h := simLoop_map_month p months (initState p) 1
  constructor
  · have := congrArg List.length h
    simpa [run_simulation] using this
  · exact h

/-- Claim C5: every emitted record's total token value is its recorded supply
times its recorded price, and its observer portfolio value is the observer
holdings times its recorded price, both with the post-update values. -/
theorem c5_record_consistency (p : Params) :
    (run_simulation p).Forall
      (fun r => r.ttv = r.supply * r.tokenPrice ∧
        r.portfolioValue = p.user_tokens * r.tokenPrice) := by
  apply simLoop_forall
  intro s i
  exact ⟨rfl, rfl⟩

/-- One step preserves the state invariant, never increases the supply, never
decreases the price, and emits a record with positive market depth. -/
theorem step_invariant {p : Params} {s : SimState} (hp : ValidParams p)
    (hs : GoodState s) (i : ℕ) :
    GoodState (step p s i).1 ∧
    (step p s i).1.current_supply ≤ s.current_supply ∧
    s.current_price ≤ (step p s i).1.current_price ∧
    0 < (step p s i).2.marketDepth := by
  obtain ⟨hpr0, hliq, -, -, hfee, -, hburn, -, hgrow, -⟩ := hp
  obtain ⟨hsup, hpri, haum⟩ := hs
  have hrev : 0 ≤ (stepData p s).revenue_usd :=
    mul_nonneg haum (div_nonneg hfee (by norm_num))
  have hdep : 0 < (stepData p s).dynamic_depth := by
    have hmc : (0:ℚ) ≤ s.current_supply * s.current_price * 0.01 :=
      mul_nonneg (mul_nonneg hsup hpri.le) (by norm_num)
    show 0 < p.liquidity_depth + s.current_supply * s.current_price * 0.01
    linarith
  have hmove : 0 ≤ (stepData p s).price_move_pct := div_nonneg hrev hdep.le
  have hone : (1:ℚ) ≤ 1 + (stepData p s).price_move_pct := by linarith
  have hprice_le : s.current_price ≤ (stepData p s).new_price :=
    le_mul_of_one_le_right hpri.le hone
  have hone' : (0:ℚ) < 1 + (stepData p s).price_move_pct := by linarith
  have hprice_pos : 0 < (stepData p s).new_price :=
    mul_pos hpri hone'
  have hraw : 0 ≤ (stepData p s).tokens_burned_raw :=
    mul_nonneg (div_nonneg hrev hpri.le) (div_nonneg hburn (by norm_num))
  have hburned : 0 ≤ (stepData p s).tokens_burned := by
    by_cases hc : s.current_supply < CRITICAL_SUPPLY_THRESHOLD
    · have h : (stepData p s).tokens_burned =
          (stepData p s).tokens_burned_raw *
            (s.current_supply / CRITICAL_SUPPLY_THRESHOLD) * 0.01 := by
        simp only [stepData]
        rw [if_pos hc]
      rw [h]
      have hf : (0:ℚ) ≤ s.current_supply / CRITICAL_SUPPLY_THRESHOLD :=
        div_nonneg hsup (by norm_num [CRITICAL_SUPPLY_THRESHOLD])
      exact mul_nonneg (mul_nonneg hraw hf) (by norm_num)
    · have h : (stepData p s).tokens_burned =
          (stepData p s).tokens_burned_raw := by
        simp only [stepData]
        rw [if_neg hc]
      rw [h]
      exact hraw
  have hsup' : 0 ≤ (stepData p s).new_supply := le_max_left 0 _
  have hsdec : (stepData p s).new_supply ≤ s.current_supply :=
    max_le hsup (sub_le_self _ hburned)
  have haum' : 0 ≤ (stepData p s).new_monthly_new_aum :=
    mul_nonneg haum (by linarith)
  exact ⟨⟨hsup', hprice_pos, haum'⟩, hsdec, hprice_le, hdep⟩

/-- The parameter constraints make the initial state satisfy the invariant. -/
theorem initState_good {p : Params} (hp : ValidParams p) :
    GoodState (initState p) := by
  obtain ⟨h1, -, h3, h4, -⟩ := hp
  exact ⟨h3.le, h1, mul_nonneg h4 (by norm_num)⟩

/-- Full run invariant: every record has non-negative supply, positive price
bounded below by the starting price, supply bounded above by the starting
supply and positive market depth; consecutively, supply never increases and
price never decreases. -/
theorem simLoop_invariant {p : Params} (hp : ValidParams p) :
    ∀ (n : ℕ) (s : SimState) (i : ℕ), GoodState s →
      ((simLoop p s i n).Forall (fun r =>
        0 ≤ r.supply ∧ 0 < r.tokenPrice ∧
        s.current_price ≤ r.tokenPrice ∧ r.supply ≤ s.current_supply ∧
        0 < r.marketDepth)) ∧
      List.Chain' (fun a b => b.supply ≤ a.supply ∧ a.tokenPrice ≤ b.tokenPrice)
        (simLoop p s i n) := by
  intro n
  induction n with
  | zero => intro s i hs; exact ⟨trivial, List.chain'_nil⟩
  | succ n ih =>
    intro s i hs
    obtain ⟨hg', hsdec, hpinc, hdep⟩ := step_invariant hp hs i
    obtain ⟨ihF, ihC⟩ := ih (step p s i).1 (i + 1) hg'
    have hrs : (step p s i).2.supply = (step p s i).1.current_supply := rfl
    have hrp : (step p s i).2.tokenPrice = (step p s i).1.current_price := rfl
    have hF : (simLoop p (step p s i).1 (i + 1) n).Forall (fun r =>
        0 ≤ r.supply ∧ 0 < r.tokenPrice ∧
        s.current_price ≤ r.tokenPrice ∧ r.supply ≤ s.current_supply ∧
        0 < r.marketDepth) := by
      rw [List.forall_iff_forall_mem] at ihF ⊢
      intro x hx
      obtain ⟨h1, h2, h3, h4, h5⟩ := ihF x hx
      exact ⟨h1, h2, le_trans hpinc h3, le_trans h4 hsdec, h5⟩
    constructor
    · rw [simLoop, List.forall_cons]
      refine ⟨⟨?_, ?_, ?_, ?_, hdep⟩, hF⟩
      · rw [hrs]; exact hg'.1
      · rw [hrp]; exact hg'.2.1
      · rw [hrp]; exact hpinc
      · rw [hrs]; exact hsdec
    · rw [simLoop]
      refine List.chain'_cons'.mpr ⟨?_, ihC⟩
      intro y hy
      have hmem := List.mem_of_mem_head? hy
      rw [List.forall_iff_forall_mem] at ihF
      obtain ⟨-, -, h3, h4, -⟩ := ihF y hmem
      constructor
      · rw [hrs]; exact h4
      · rw [hrp]; exact h3

/-- Claim C4: for parameters within the input constraints, every period's
recorded supply is non-negative and its recorded price strictly positive. -/
theorem c4_nonnegativity (p : Params) (hp : ValidParams p) :
    (run_simulation p).Forall (fun r => 0 ≤ r.supply ∧ 0 < r.tokenPrice) := by
  have h := (simLoop_invariant hp months (initState p) 1 (initState_good hp)).1
  rw [List.forall_iff_forall_mem] at h ⊢
  intro x hx
  obtain ⟨h1, h2, -, -, -⟩ := h x hx
  exact ⟨h1, h2⟩

/-- Non-negativity instantiated on the literal scenario parameters. -/
theorem c4_nonnegativity_witness :
    ValidParams scenarioParams ∧
    (run_simulation scenarioParams).Forall
      (fun r => 0 ≤ r.supply ∧ 0 < r.tokenPrice) :=
  ⟨by norm_num [ValidParams, scenarioParams],
   c4_nonnegativity scenarioParams (by norm_num [ValidParams, scenarioParams])⟩

/-- Claim C8: across consecutive periods the recorded supply never increases
and the recorded price never decreases; every recorded supply stays within
[0, initialSupply] and every recorded price never falls below initialPrice. -/
theorem c8_supply_price_monotone (p : Params) (hp : ValidParams p) :
    List.Chain' (fun a b => b.supply ≤ a.supply ∧ a.tokenPrice ≤ b.tokenPrice)
      (run_simulation p) ∧
    (run_simulation p).Forall (fun r =>
      0 ≤ r.supply ∧ r.supply ≤ p.initial_supply ∧
      p.initial_price ≤ r.tokenPrice) := by
  have h := simLoop_invariant hp months (initState p) 1 (initState_good hp)
  refine ⟨h.2, ?_⟩
  have hF := h.1
  rw [List.forall_iff_forall_mem] at hF ⊢
  intro x hx
  obtain ⟨h1, -, h3, h4, -⟩ := hF x hx
  exact ⟨h1, h4, h3⟩

/-- Supply/price monotonicity instantiated on the literal scenario
parameters. -/
theorem c8_supply_price_monotone_witness :
    ValidParams scenarioParams ∧
    (List.Chain' (fun a b => b.supply ≤ a.supply ∧ a.tokenPrice ≤ b.tokenPrice)
      (run_simulation scenarioParams) ∧
    (run_simulation scenarioParams).Forall (fun r =>
      0 ≤ r.supply ∧ r.supply ≤ scenarioParams.initial_supply ∧
      scenarioParams.initial_price ≤ r.tokenPrice)) :=
  ⟨by norm_num [ValidParams, scenarioParams],
   c8_supply_price_monotone scenarioParams
     (by norm_num [ValidParams, scenarioParams])⟩

/-- Claim C9: under the input constraints every divisor in the run is
positive: the initial price, the recorded (hence the carried) price of every
period and the dynamic market depth of every period, so no division by zero
occurs. -/
theorem c9_divisors_positive (p : Params) (hp : ValidParams p) :
    0 < p.initial_price ∧
    (run_simulation p).Forall
      (fun r => 0 < r.tokenPrice ∧ 0 < r.marketDepth) := by
  refine ⟨hp.1, ?_⟩
  have hF := (simLoop_invariant hp months (initState p) 1 (initState_good hp)).1
  rw [List.forall_iff_forall_mem] at hF ⊢
  intro x hx
  obtain ⟨-, h2, -, -, h5⟩ := hF x hx
  exact ⟨h2, h5⟩

/-- Positive divisors instantiated on the literal scenario parameters. -/
theorem c9_divisors_positive_witness :
    ValidParams scenarioParams ∧
    (0 < scenarioParams.initial_price ∧
    (run_simulation scenarioParams).Forall
      (fun r => 0 < r.tokenPrice ∧ 0 < r.marketDepth)) :=
  ⟨by norm_num [ValidParams, scenarioParams],
   c9_divisors_positive scenarioParams
     (by norm_num [ValidParams, scenarioParams])⟩

/-- With non-negative growth and positive pending new AUM, every record's
cumulative AUM strictly exceeds the running total at loop entry and the
records' cumulative AUM strictly increases consecutively. -/
theorem simLoop_aum {p : Params} (hg : 0 ≤ p.monthly_growth) :
    ∀ (n : ℕ) (s : SimState) (i : ℕ), 0 < s.monthly_new_aum →
      (simLoop p s i n).Forall (fun r => s.total_aum < r.totalAUM) ∧
      List.Chain' (fun a b => a.totalAUM < b.totalAUM) (simLoop p s i n) := by
  intro n
  induction n with
  | zero => intro s i hs; exact ⟨trivial, List.chain'_nil⟩
  | succ n ih =>
    intro s i hs
    have hstate : (step p s i).1.monthly_new_aum =
        s.monthly_new_aum * (1 + p.monthly_growth / 100) := rfl
    have haum' : 0 < (step p s i).1.monthly_new_aum := by
      rw [hstate]
      exact mul_pos hs (by linarith)
    obtain ⟨ihF, ihC⟩ := ih (step p s i).1 (i + 1) haum'
    have hrt : (step p s i).2.totalAUM = s.total_aum + s.monthly_new_aum := rfl
    have hst : (step p s i).1.total_aum = s.total_aum + s.monthly_new_aum := rfl
    constructor
    · rw [simLoop, List.forall_cons]
      constructor
      · rw [hrt]; linarith
      · rw [List.forall_iff_forall_mem] at ihF ⊢
        intro x hx
        have hx' := ihF x hx
        rw [hst] at hx'
        linarith
    · rw [simLoop]
      refine List.chain'_cons'.mpr ⟨?_, ihC⟩
      intro y hy
      have hmem := List.mem_of_mem_head? hy
      rw [List.forall_iff_forall_mem] at ihF
      have hy' := ihF y hmem
      rw [hst] at hy'
      rw [hrt]
      exact hy'

/-- Claim C7: with a non-negative growth rate and a strictly positive initial
new-AUM seed, the recorded cumulative AUM strictly increases from each period
to the next over the whole run. -/
theorem c7_aum_strictly_increasing (p : Params)
    (hg : 0 ≤ p.monthly_growth) (ha : 0 < p.initial_aum) :
    List.Chain' (fun a b => a.totalAUM < b.totalAUM) (run_simulation p) := by
  have h0 : 0 < (initState p).monthly_new_aum := by
    have : (initState p).monthly_new_aum = p.initial_aum * 1000000 := rfl
    rw [this]
    exact mul_pos ha (by norm_num)
  exact (simLoop_aum hg months (initState p) 1 h0).2

/-- Strict AUM growth instantiated on the literal scenario parameters. -/
theorem c7_aum_strictly_increasing_witness :
    (0 ≤ scenarioParams.monthly_growth ∧ 0 < scenarioParams.initial_aum) ∧
    List.Chain' (fun a b => a.totalAUM < b.totalAUM)
      (run_simulation scenarioParams) :=
  ⟨by norm_num [scenarioParams],
   c7_aum_strictly_increasing scenarioParams
     (by norm_num [scenarioParams]) (by norm_num [scenarioParams])⟩

/-- The loop's output, portfolio field blanked, does not depend on
`user_tokens`: the two parameter sets below differ only there. -/
theorem simLoop_observer_indep (a g sup f b pr l u1 u2 : ℚ) :
    ∀ (n : ℕ) (s : SimState) (i : ℕ),
      (simLoop ⟨a, g, sup, f, b, pr, l, u1⟩ s i n).map eraseObserver =
      (simLoop ⟨a, g, sup, f, b, pr, l, u2⟩ s i n).map eraseObserver := by
  intro n
  induction n with
  | zero => intro s i; rfl
  | succ n ih =>
    intro s i
    rw [simLoop, simLoop, List.map_cons, List.map_cons]
    exact congrArg₂ List.cons rfl (ih _ _)

/-- Claim C10: two runs whose parameters differ only in the observer's
holdings produce record sequences identical in every field except the
observer portfolio value. -/
theorem c10_observer_noninterference (p q : Params)
    (h : p.initial_aum = q.initial_aum ∧ p.monthly_growth = q.monthly_growth ∧
      p.initial_supply = q.initial_supply ∧ p.fee_bps = q.fee_bps ∧
      p.burn_pct = q.burn_pct ∧ p.initial_price = q.initial_price ∧
      p.liquidity_depth = q.liquidity_depth) :
    (run_simulation p).map eraseObserver =
      (run_simulation q).map eraseObserver := by
  obtain ⟨h1, h2, h3, h4, h5, h6, h7⟩ := h
  obtain ⟨a, g, sup, f, b, pr, l, u⟩ := p
  obtain ⟨a', g', sup', f', b', pr', l', u'⟩ := q
  dsimp only at h1 h2 h3 h4 h5 h6 h7
  subst h1
  subst h2
  subst h3
  subst h4
  subst h5
  subst h6
  subst h7
  exact simLoop_observer_indep a g sup f b pr l u u' months _ 1

/-- Observer non-interference instantiated on the scenario parameters against
the same parameters with doubled observer holdings. -/
theorem c10_observer_noninterference_witness :
    (scenarioParams.initial_aum =
        (⟨10, 1, 100000000, 25, 50, 0.5, 500000, 2000000⟩ : Params).initial_aum ∧
      scenarioParams.monthly_growth =
        (⟨10, 1, 100000000, 25, 50, 0.5, 500000, 2000000⟩ : Params).monthly_growth ∧
      scenarioParams.initial_supply =
        (⟨10, 1, 100000000, 25, 50, 0.5, 500000, 2000000⟩ : Params).initial_supply ∧
      scenarioParams.fee_bps =
        (⟨10, 1, 100000000, 25, 50, 0.5, 500000, 2000000⟩ : Params).fee_bps ∧
      scenarioParams.burn_pct =
        (⟨10, 1, 100000000, 25, 50, 0.5, 500000, 2000000⟩ : Params).burn_pct ∧
      scenarioParams.initial_price =
        (⟨10, 1, 100000000, 25, 50, 0.5, 500000, 2000000⟩ : Params).initial_price ∧
      scenarioParams.liquidity_depth =
        (⟨10, 1, 100000000, 25, 50, 0.5, 500000, 2000000⟩ : Params).liquidity_depth) ∧
    (run_simulation scenarioParams).map eraseObserver =
      (run_simulation ⟨10, 1, 100000000, 25, 50, 0.5, 500000, 2000000⟩).map
        eraseObserver :=
  ⟨by norm_num [scenarioParams],
   c10_observer_noninterference scenarioParams
     ⟨10, 1, 100000000, 25, 50, 0.5, 500000, 2000000⟩
     (by norm_num [scenarioParams])⟩
